import Mathlib

/-!
Verification development for the pocketbase-backend repository.

The Go sources under verification are main.go (stripe checkout handler, stripe
webhook dispatch, updatePaymentFromWebhook, handleProposalAcceptance) and
didit.go (parseDiditTimestamp, isTimestampValid, verifyDiditSignatureV2,
diditWebhookHandler). Bytes are modelled as Nat values below 256, byte strings
as List Nat, Go strings as String, int64 as Int, and the PocketBase record
store as an association list from record id to a typed record. Machine
arithmetic is modelled with explicit reduction modulo 2 ^ 32 where the SHA-256
compression function requires it; int64 overflow is commented where it cannot
change an outcome. External effects (Stripe API, Stream API, record-store
persistence) are modelled by explicit success flags, and fallible operations
return Except or Option.
-/

namespace PB

/-! ### SHA-256 and HMAC-SHA256 (Go crypto/sha256, crypto/hmac as used by didit.go) -/

/-- Reduction modulo 2 ^ 32, the word size of SHA-256. -/
def m32 (x : Nat) : Nat := x % 4294967296

/-- Right rotation of a 32-bit word by n bits. -/
def rotr (n x : Nat) : Nat := m32 ((x >>> n) ||| (x <<< (32 - n)))

/-- Big sigma-0 of FIPS 180-4. -/
def bsig0 (x : Nat) : Nat := (rotr 2 x) ^^^ (rotr 13 x) ^^^ (rotr 22 x)

/-- Big sigma-1 of FIPS 180-4. -/
def bsig1 (x : Nat) : Nat := (rotr 6 x) ^^^ (rotr 11 x) ^^^ (rotr 25 x)

/-- Small sigma-0 of FIPS 180-4. -/
def ssig0 (x : Nat) : Nat := (rotr 7 x) ^^^ (rotr 18 x) ^^^ (x >>> 3)

/-- Small sigma-1 of FIPS 180-4. -/
def ssig1 (x : Nat) : Nat := (rotr 17 x) ^^^ (rotr 19 x) ^^^ (x >>> 10)

/-- Round constants of SHA-256, written in decimal. -/
def sha256K : List Nat :=
  [1116352408, 1899447441, 3049323471, 3921009573,
   961987163, 1508970993, 2453635748, 2870763221,
   3624381080, 310598401, 607225278, 1426881987,
   1925078388, 2162078206, 2614888103, 3248222580,
   3835390401, 4022224774, 264347078, 604807628,
   770255983, 1249150122, 1555081692, 1996064986,
   2554220882, 2821834349, 2952996808, 3210313671,
   3336571891, 3584528711, 113926993, 338241895,
   666307205, 773529912, 1294757372, 1396182291,
   1695183700, 1986661051, 2177026350, 2456956037,
   2730485921, 2820302411, 3259730800, 3345764771,
   3516065817, 3600352804, 4094571909, 275423344,
   430227734, 506948616, 659060556, 883997877,
   958139571, 1322822218, 1537002063, 1747873779,
   1955562222, 2024104815, 2227730452, 2361852424,
   2428436474, 2756734187, 3204031479, 3329325298]

/-- Initial hash value of SHA-256, written in decimal. -/
def sha256H0 : List Nat :=
  [1779033703, 3144134277, 1013904242, 2773480762,
   1359893119, 2600822924, 528734635, 1541459225]

/-- Big-endian grouping of a byte list into 32-bit words (trailing bytes beyond a
multiple of four are dropped; padding always yields a multiple of 64 bytes). -/
def bytesToWords : List Nat → List Nat
  | a :: b :: c :: d :: rest => (a * 16777216 + b * 65536 + c * 256 + d) :: bytesToWords rest
  | _ => []

/-- Big-endian 8-byte encoding of the message bit length. -/
def lenBytes8 (n : Nat) : List Nat :=
  [(n >>> 56) % 256, (n >>> 48) % 256, (n >>> 40) % 256, (n >>> 32) % 256,
   (n >>> 24) % 256, (n >>> 16) % 256, (n >>> 8) % 256, n % 256]

/-- SHA-256 padding: a 0x80 byte, zero bytes up to 56 modulo 64, then the 64-bit
bit length. -/
def sha256Pad (msg : List Nat) : List Nat :=
  msg ++ [0x80] ++ List.replicate ((119 - msg.length % 64) % 64) 0 ++ lenBytes8 (msg.length * 8)

/-- Extension of the 16 message-schedule words of one block to 64 words. -/
def extendW (w : List Nat) : Nat → List Nat
  | 0 => w
  | fuel + 1 =>
    let t := w.length
    let nw := m32 (ssig1 (w.getD (t - 2) 0) + w.getD (t - 7) 0 +
      ssig0 (w.getD (t - 15) 0) + w.getD (t - 16) 0)
    extendW (w ++ [nw]) fuel

/-- One round of the SHA-256 compression function on the eight working registers. -/
def sha256Round (st : List Nat) (kw : Nat × Nat) : List Nat :=
  match st with
  | [a, b, c, d, e, f, g, h] =>
    let t1 := m32 (h + bsig1 e + ((e &&& f) ^^^ ((4294967295 ^^^ e) &&& g)) + kw.1 + kw.2)
    let t2 := m32 (bsig0 a + ((a &&& b) ^^^ (a &&& c) ^^^ (b &&& c)))
    [m32 (t1 + t2), a, b, c, m32 (d + t1), e, f, g]
  | other => other

/-- Compression of one 16-word block into the running hash value. -/
def sha256Compress (h : List Nat) (block : List Nat) : List Nat :=
  let w := extendW block 48
  let st := (sha256K.zip w).foldl sha256Round h
  (h.zip st).map fun p => m32 (p.1 + p.2)

/-- Folding of the padded word stream through the compression function, 16 words
at a time; the fuel argument is instantiated with the word count. -/
def sha256Chunks (h : List Nat) (ws : List Nat) : Nat → List Nat
  | 0 => h
  | fuel + 1 =>
    match ws with
    | [] => h
    | _ => sha256Chunks (sha256Compress h (ws.take 16)) (ws.drop 16) fuel

/-- Big-endian bytes of one 32-bit word. -/
def wordBytes (x : Nat) : List Nat :=
  [(x >>> 24) % 256, (x >>> 16) % 256, (x >>> 8) % 256, x % 256]

/-- SHA-256 of a byte list, as the 32-byte digest. Validated against the FIPS
and RFC 4231 test vectors during development. -/
def sha256 (msg : List Nat) : List Nat :=
  let ws := bytesToWords (sha256Pad msg)
  (sha256Chunks sha256H0 ws ws.length).flatMap wordBytes

/-- HMAC-SHA256 with byte-list key and message, block size 64 (RFC 2104), as
computed by hmac.New(sha256.New, secret) in verifyDiditSignatureV2. -/
def hmacSha256 (key msg : List Nat) : List Nat :=
  let k0 := if 64 < key.length then sha256 key else key
  let k := k0 ++ List.replicate (64 - k0.length) 0
  sha256 ((k.map fun b => b ^^^ 0x5c) ++ sha256 ((k.map fun b => b ^^^ 0x36) ++ msg))

/-- Lowercase hex digit, as produced by encoding/hex. -/
def hexDigit (n : Nat) : Char := Char.ofNat (if n < 10 then 48 + n else 87 + n)

/-- Lowercase hex encoding of a byte list (hex.EncodeToString). -/
def hexEncode (bs : List Nat) : String :=
  String.mk (bs.flatMap fun b => [hexDigit (b / 16), hexDigit (b % 16)])

/-! ### Timestamp parsing and signature verification (didit.go lines 260 to 286) -/

/-- Accumulating decimal digit parser; fails on any non-digit character
(Go strconv.ParseInt, base 10 digit loop). -/
def goDigitsVal (acc : Nat) : List Char → Option Nat
  | [] => some acc
  | c :: rest => if c.isDigit then goDigitsVal (acc * 10 + (c.toNat - 48)) rest else none

/-- Go strconv.ParseInt with base 10 and bit size 64: optional sign, one or more
decimal digits, and a range check against the int64 bounds; any violation is an
error, modelled as none. -/
def parseGoInt64 (s : String) : Option Int :=
  match s.toList with
  | [] => none
  | c :: rest =>
    let signAndDigits : Bool × List Char :=
      if c = '-' then (true, rest) else if c = '+' then (false, rest) else (false, c :: rest)
    match signAndDigits.2 with
    | [] => none
    | ds =>
      match goDigitsVal 0 ds with
      | none => none
      | some n =>
        if signAndDigits.1 then
          if n ≤ 9223372036854775808 then some (-(n : Int)) else none
        else
          if n ≤ 9223372036854775807 then some (n : Int) else none

/-- Function parseDiditTimestamp of didit.go: an empty header is an error,
otherwise strconv.ParseInt(value, 10, 64). -/
def parseDiditTimestamp (value : String) : Option Int :=
  if value = "" then none else parseGoInt64 value

/-- Function isTimestampValid of didit.go: diff := now - ts, accepted when
-maxSkew ≤ diff ≤ maxSkew. Go computes diff in int64; for 0 ≤ now < 2 ^ 62 and
any parseable ts, wrap-around can only occur when the true difference is far
outside the skew window and the wrapped value is equally rejected, so plain
integer subtraction is a faithful model there. -/
def isTimestampValid (ts now maxSkew : Int) : Bool :=
  decide (now - ts ≤ maxSkew) && decide (-maxSkew ≤ now - ts)

/-- Function verifyDiditSignatureV2 of didit.go: hex-encoded HMAC-SHA256 of the
raw body under the shared secret, compared to the signature header with
subtle.ConstantTimeCompare on the UTF-8 bytes, which agrees with string
equality. The Go function returns (bool, error) with the error non-nil exactly
when the comparison fails, so the caller test err == nil && ok is this Bool. -/
def verifyDiditSignatureV2 (secret : List Nat) (signature : String) (body : List Nat) : Bool :=
  hexEncode (hmacSha256 secret body) == signature

/-- Composite verification gate of diditWebhookHandler (didit.go lines 199 to
217): the timestamp header must parse, pass isTimestampValid with maxSkew 300
against the current time, and the signature header must pass
verifyDiditSignatureV2; the request proceeds past the 401 responses exactly
when this is true. -/
def diditGate (secret : List Nat) (sigHeader : String) (body : List Nat)
    (tsHeader : String) (now : Int) : Bool :=
  match parseDiditTimestamp tsHeader with
  | none => false
  | some ts => isTimestampValid ts now 300 && verifyDiditSignatureV2 secret sigHeader body

/-! ### Generic keyed record store (PocketBase Dao, modelled as an association list) -/

/-- Lookup of a record by id (Dao FindRecordById); the first binding wins. -/
def findRecordById {α : Type} (store : List (String × α)) (id : String) : Option α :=
  match store with
  | [] => none
  | kv :: rest => if kv.1 = id then some kv.2 else findRecordById rest id

/-- Persistence of an updated record under an existing id (Dao SaveRecord on a
record that was loaded from the store). -/
def saveExisting {α : Type} (store : List (String × α)) (id : String) (v : α) :
    List (String × α) :=
  store.map fun kv => if kv.1 = id then (id, v) else kv

theorem findRecordById_saveExisting_same {α : Type} (store : List (String × α))
    (id : String) (v : α) (q : α) (h : findRecordById store id = some q) :
    findRecordById (saveExisting store id v) id = some v := by
  induction store with
  | nil => simp [findRecordById] at h
  | cons kv rest ih =>
    by_cases hk : kv.1 = id
    · simp [saveExisting, findRecordById, hk]
    · simp [findRecordById, hk] at h
      simpa [saveExisting, findRecordById, hk] using ih h

theorem findRecordById_append_fresh {α : Type} (store : List (String × α))
    (id : String) (v : α) (h : findRecordById store id = none) :
    findRecordById (store ++ [(id, v)]) id = some v := by
  induction store with
  | nil => simp [findRecordById]
  | cons kv rest ih =>
    by_cases hk : kv.1 = id
    · simp [findRecordById, hk] at h
    · simp [findRecordById, hk] at h ⊢
      exact ih h

/-! ### Payment records and stripe webhook reconciliation (main.go lines 187 to 358) -/

/-- Payment record of the payments collection, with exactly the fields the
checkout handler sets (main.go lines 117 to 126); created_at models the
time.Now() value as an abstract tick. -/
structure Payment where
  client_id : String
  freelancer_id : String
  amount : Int
  currency : String
  stripe_checkout_session_id : String
  stripe_payment_intent_id : String
  status : String
  is_deleted : Bool
  created_at : Nat
deriving DecidableEq, Repr

/-- Store of payment records keyed by record id. -/
abbrev PaymentStore := List (String × Payment)

/-- Record state written by updatePaymentFromWebhook on an actual transition:
the payment-intent id is stored only when the event carried a non-empty one,
and the status is overwritten with the target (main.go lines 348 to 351). -/
def reconciledPayment (payment : Payment) (status paymentIntentID : String) : Payment :=
  let p1 := if paymentIntentID ≠ "" then
    { payment with stripe_payment_intent_id := paymentIntentID } else payment
  { p1 with status := status }

/-- Function updatePaymentFromWebhook of main.go: resolve the payment (404 when
absent), return success without writing when the stored status already equals
the target, otherwise persist the reconciled record (500 when the save fails,
leaving the store unchanged). Result statuses are HTTP codes. -/
def updatePaymentFromWebhook (saveOk : Bool) (store : PaymentStore)
    (paymentID status paymentIntentID : String) : Except Nat Unit × PaymentStore :=
  match findRecordById store paymentID with
  | none => (Except.error 404, store)
  | some payment =>
    if payment.status = status then (Except.ok (), store)
    else if saveOk then
      (Except.ok (), saveExisting store paymentID (reconciledPayment payment status paymentIntentID))
    else (Except.error 500, store)

theorem reconciledPayment_status (payment : Payment) (status paymentIntentID : String) :
    (reconciledPayment payment status paymentIntentID).status = status := rfl

/-- Decoded stripe webhook event as the dispatch switch of main.go lines 199 to
242 consumes it: the payment id is the payment_id metadata entry (empty string
when the entry is missing), together with the embedded payment-intent id. JSON
decoding failures of the envelope or inner payload are 400 responses before the
dispatch and are outside this model. -/
inductive StripeEvent where
  | checkoutSessionCompleted (paymentID : String) (paymentIntentID : String)
  | paymentIntentSucceeded (paymentID : String) (paymentIntentID : String)
  | paymentIntentFailed (paymentID : String) (paymentIntentID : String)
  | unknownType (tag : String)
deriving DecidableEq, Repr

/-- The stripe webhook dispatch switch of main.go: checkout.session.completed
and payment_intent.succeeded reconcile to status paid, and
payment_intent.payment_failed to status failed, each after a 400 check for a
missing payment_id metadata entry; unknown event types are 400 errors. -/
def stripeWebhookDispatch (saveOk : Bool) (store : PaymentStore) (ev : StripeEvent) :
    Except Nat Unit × PaymentStore :=
  match ev with
  | StripeEvent.checkoutSessionCompleted pid intent =>
    if pid = "" then (Except.error 400, store)
    else updatePaymentFromWebhook saveOk store pid "paid" intent
  | StripeEvent.paymentIntentSucceeded pid intent =>
    if pid = "" then (Except.error 400, store)
    else updatePaymentFromWebhook saveOk store pid "paid" intent
  | StripeEvent.paymentIntentFailed pid intent =>
    if pid = "" then (Except.error 400, store)
    else updatePaymentFromWebhook saveOk store pid "failed" intent
  | StripeEvent.unknownType _ => (Except.error 400, store)

/-- Payment id carried by an event (the payment_id metadata entry). -/
def eventPaymentID : StripeEvent → String
  | StripeEvent.checkoutSessionCompleted pid _ => pid
  | StripeEvent.paymentIntentSucceeded pid _ => pid
  | StripeEvent.paymentIntentFailed pid _ => pid
  | StripeEvent.unknownType _ => ""

/-- Target payment status a dispatched event reconciles to, none for unknown
event types. -/
def eventTargetStatus : StripeEvent → Option String
  | StripeEvent.checkoutSessionCompleted _ _ => some "paid"
  | StripeEvent.paymentIntentSucceeded _ _ => some "paid"
  | StripeEvent.paymentIntentFailed _ _ => some "failed"
  | StripeEvent.unknownType _ => none

/-! ### Didit webhook reconciliation (didit.go lines 192 to 258) -/

/-- Verification fields of a user record that the didit webhook handler reads
and writes. -/
structure UserRecord where
  didit_session_id : String
  verification_status : String
  verification_reason : String
deriving DecidableEq, Repr

/-- Store of user records keyed by record id. -/
abbrev UserStore := List (String × UserRecord)

/-- Decoded didit webhook payload (didit.go DiditWebhookPayload); the timestamp
and decision fields are decoded by the Go struct but never read by the
handler. -/
structure DiditWebhookPayload where
  sessionID : String
  status : String
  webhookType : String
  timestamp : Int
  reason : String
deriving DecidableEq, Repr

/-- Model of Go strings.ToLower as a per-character map; it agrees with the Go
function on ASCII input, which covers the status values this system
exchanges. -/
def goToLower (s : String) : String := String.mk (s.toList.map Char.toLower)

/-- User-record state written by the didit webhook handler on an actual update
(didit.go lines 244 to 247): the verification status is overwritten with the
lowercased incoming status, and the verification reason is overwritten exactly
when the incoming reason is non-empty. -/
def diditUpdatedUser (user : UserRecord) (payload : DiditWebhookPayload) : UserRecord :=
  { user with verification_status := goToLower payload.status,
              verification_reason := if payload.reason ≠ "" then payload.reason
                else user.verification_reason }

/-- Post-verification body of diditWebhookHandler (didit.go lines 224 to 257):
acknowledge with 200 when a required field is empty, when no user matches the
session id, when the incoming lowercased status, reason, and session id all
equal the stored triple, and in every persistence outcome; otherwise persist
the updated user best-effort. -/
def applyDiditPayload (payload : DiditWebhookPayload) (saveOk : Bool) (store : UserStore) :
    Nat × UserStore :=
  if payload.sessionID = "" ∨ payload.status = "" ∨ payload.webhookType = "" then (200, store)
  else
    match store.find? (fun kv => kv.2.didit_session_id == payload.sessionID) with
    | none => (200, store)
    | some (uid, user) =>
      if user.verification_status = goToLower payload.status ∧
          user.verification_reason = payload.reason ∧
          user.didit_session_id = payload.sessionID then (200, store)
      else
        (200, if saveOk then saveExisting store uid (diditUpdatedUser user payload) else store)

/-- Function diditWebhookHandler of didit.go: 401 when the timestamp header is
absent or unparsable, stale beyond 300 seconds of skew, the signature does not
verify, or the body fails JSON decoding; otherwise the post-verification body
applies. The decode argument models json.Unmarshal into DiditWebhookPayload on
the raw body bytes, and saveOk models the SaveRecord outcome. -/
def diditWebhookHandler (secret : List Nat) (tsHeader sigHeader : String) (body : List Nat)
    (now : Int) (decode : List Nat → Option DiditWebhookPayload) (saveOk : Bool)
    (store : UserStore) : Nat × UserStore :=
  match parseDiditTimestamp tsHeader with
  | none => (401, store)
  | some ts =>
    if !isTimestampValid ts now 300 then (401, store)
    else if !verifyDiditSignatureV2 secret sigHeader body then (401, store)
    else
      match decode body with
      | none => (401, store)
      | some payload => applyDiditPayload payload saveOk store

/-! ### Proposal acceptance hook (main.go lines 360 to 419) -/

/-- Project record fields read by the hook and the checkout handler. -/
structure ProjectRecord where
  client_id : String
  title : String
  is_deleted : Bool
deriving DecidableEq, Repr

/-- Proposal record fields read by the hook. -/
structure ProposalRecord where
  id : String
  project_id : String
  client_id : String
  freelancer_id : String
  status : String
  is_deleted : Bool
deriving DecidableEq, Repr

/-- Conversation record of the conversations collection. -/
structure Conversation where
  project_id : String
  proposal_id : String
  stream_channel_id : String
  is_deleted : Bool
deriving DecidableEq, Repr

/-- Outcomes of the external calls and store operations the hook performs, each
modelled as a success flag. -/
structure StreamEnv where
  upsertUsersOk : Bool
  createChannelOk : Bool
  conversationsCollectionOk : Bool
  saveOk : Bool
deriving DecidableEq, Repr

/-- Predicate of the FindFirstRecordByFilter query on conversations: same
proposal id and not soft-deleted. -/
def liveConversationFor (pid : String) (c : Conversation) : Bool :=
  c.proposal_id == pid && !c.is_deleted

/-- Function handleProposalAcceptance of main.go: skip nil records, soft-deleted
records, and records whose status is not accepted; return success without any
action when a live conversation for the proposal already exists; otherwise
resolve the project (store errors other than no-rows on the conversation query
are surfaced unchanged and outside this model), upsert both participants and
create the messaging channel with the Stream client, and persist the new
Conversation last, so no partial record survives a failure. -/
def handleProposalAcceptance (env : StreamEnv) (projects : List (String × ProjectRecord))
    (convs : List Conversation) (rec : Option ProposalRecord) :
    Except String Unit × List Conversation :=
  match rec with
  | none => (Except.ok (), convs)
  | some r =>
    if r.is_deleted then (Except.ok (), convs)
    else if r.status ≠ "accepted" then (Except.ok (), convs)
    else
      match convs.find? (liveConversationFor r.id) with
      | some _ => (Except.ok (), convs)
      | none =>
        match findRecordById projects r.project_id with
        | none => (Except.error "project not found", convs)
        | some _ =>
          if !env.upsertUsersOk then (Except.error "upsert users failed", convs)
          else if !env.createChannelOk then (Except.error "create channel failed", convs)
          else if !env.conversationsCollectionOk then
            (Except.error "conversations collection not found", convs)
          else if env.saveOk then
            (Except.ok (), convs ++
              [{ project_id := r.project_id, proposal_id := r.id,
                 stream_channel_id := "project_" ++ r.project_id, is_deleted := false }])
          else (Except.error "failed to save conversation", convs)

/-- Live conversations of one proposal in the store. -/
def liveConversations (pid : String) (convs : List Conversation) : List Conversation :=
  convs.filter (liveConversationFor pid)

/-! ### Stripe checkout handler (main.go lines 70 to 182) -/

/-- Request body of POST /stripe/checkout (models.go stripeCheckoutRequest). -/
structure stripeCheckoutRequest where
  project_id : String
  freelancer_id : String
  amount : Int
  currency : String
deriving DecidableEq, Repr

/-- User record fields the checkout handler reads. -/
structure CheckoutUser where
  role : String
  is_deleted : Bool
deriving DecidableEq, Repr

/-- Environment of one checkout request: the authenticated record, the request
binding outcome, the project and user stores, the outcomes of the payments
collection lookup and the three SaveRecord calls, the Stripe session call
outcome with its returned session id and url, the id the store assigns to the
new payment record, and the creation tick. The platform fee is computed in
float64 by calculatePlatformFee and flows only into the Stripe session
metadata, which this model does not represent. -/
structure CheckoutEnv where
  authRecord : Option (String × CheckoutUser)
  bindOk : Bool
  projects : List (String × ProjectRecord)
  users : List (String × CheckoutUser)
  paymentsCollectionOk : Bool
  createSaveOk : Bool
  providerOk : Bool
  providerSessionID : String
  providerURL : String
  sessionSaveOk : Bool
  compensationSaveOk : Bool
  newPaymentID : String
  nowTime : Nat
deriving DecidableEq, Repr

/-- Payment record created by the checkout handler before the provider call
(main.go lines 117 to 126): status created, empty provider-session fields, not
soft-deleted. -/
def newCheckoutPayment (callerId : String) (payload : stripeCheckoutRequest)
    (currency : String) (nowTime : Nat) : Payment :=
  { client_id := callerId, freelancer_id := payload.freelancer_id, amount := payload.amount,
    currency := currency, stripe_checkout_session_id := "", stripe_payment_intent_id := "",
    status := "created", is_deleted := false, created_at := nowTime }

/-- The POST /stripe/checkout handler of main.go, in source order: 401 without
an authenticated record, 403 for a non-client caller, 400 on binding failure,
non-positive amount, or missing ids; currency defaults to usd and is
lowercased; 404 for an unresolved project, 403 for a soft-deleted project or
one owned by another client, 404 for an unresolved freelancer, 400 for a
soft-deleted freelancer or one whose role is not freelancer; 500 when the
payments collection or the creating save fails; on provider failure the
already-created record is compensated to status failed best-effort and a 500
upstream error is returned; on success the session id is persisted and the
checkout url and payment id are returned. -/
def stripeCheckoutHandler (env : CheckoutEnv) (payload : stripeCheckoutRequest)
    (payments : PaymentStore) : Except (Nat × String) (String × String) × PaymentStore :=
  match env.authRecord with
  | none => (Except.error (401, "unauthorized"), payments)
  | some (callerId, caller) =>
    if caller.role ≠ "client" then
      (Except.error (403, "only clients can create checkout sessions"), payments)
    else if !env.bindOk then (Except.error (400, "invalid request body"), payments)
    else if payload.amount ≤ 0 then
      (Except.error (400, "amount must be positive (in cents)"), payments)
    else if payload.project_id = "" ∨ payload.freelancer_id = "" then
      (Except.error (400, "project_id and freelancer_id are required"), payments)
    else
      let currency := goToLower (if payload.currency = "" then "usd" else payload.currency)
      match findRecordById env.projects payload.project_id with
      | none => (Except.error (404, "project not found"), payments)
      | some project =>
        if project.is_deleted ∨ project.client_id ≠ callerId then
          (Except.error (403, "not allowed to pay for this project"), payments)
        else
          match findRecordById env.users payload.freelancer_id with
          | none => (Except.error (404, "freelancer not found"), payments)
          | some freelancer =>
            if freelancer.is_deleted ∨ freelancer.role ≠ "freelancer" then
              (Except.error (400, "invalid freelancer"), payments)
            else if !env.paymentsCollectionOk then
              (Except.error (500, "payments collection not found"), payments)
            else
              let payment := newCheckoutPayment callerId payload currency env.nowTime
              if !env.createSaveOk then
                (Except.error (500, "failed to create payment record"), payments)
              else
                let payments1 := payments ++ [(env.newPaymentID, payment)]
                if !env.providerOk then
                  let compensated := { payment with status := "failed" }
                  (Except.error (500, "failed to create checkout session"),
                    if env.compensationSaveOk then
                      saveExisting payments1 env.newPaymentID compensated
                    else payments1)
                else
                  let withSession :=
                    { payment with stripe_checkout_session_id := env.providerSessionID }
                  if !env.sessionSaveOk then
                    (Except.error (500, "failed to update payment record"), payments1)
                  else
                    (Except.ok (env.providerURL, env.newPaymentID),
                      saveExisting payments1 env.newPaymentID withSession)

/-! ### Payment webhook reconciliation: theorems -/

theorem updatePaymentFromWebhook_twice (store : PaymentStore) (pid st iid iid2 : String) :
    (updatePaymentFromWebhook true
      (updatePaymentFromWebhook true store pid st iid).2 pid st iid2).2 =
    (updatePaymentFromWebhook true store pid st iid).2 := by
  cases h : findRecordById store pid with
  | none => simp [updatePaymentFromWebhook, h]
  | some p =>
    by_cases hs : p.status = st
    · simp [updatePaymentFromWebhook, h, hs]
    · have hsave := findRecordById_saveExisting_same store pid
        (reconciledPayment p st iid) p h
      simp [updatePaymentFromWebhook, h, hs, hsave, reconciledPayment_status]

/-- C4: payment-webhook reconciliation is idempotent. When the stored payment
status already equals the target status of the event, the update is a no-op
returning success with the store untouched; and re-delivering any payment
webhook event a second time after a first delivery leaves the store exactly as
the first delivery left it, so an identical redelivery produces the same final
status and at most one effective write. -/
theorem paymentWebhook_idempotent (saveOk : Bool) (store : PaymentStore)
    (pid st iid : String) (ev : StripeEvent) :
    (∀ p, findRecordById store pid = some p → p.status = st →
      updatePaymentFromWebhook saveOk store pid st iid = (Except.ok (), store))
    ∧ (stripeWebhookDispatch true (stripeWebhookDispatch true store ev).2 ev).2 =
        (stripeWebhookDispatch true store ev).2 := by
  constructor
  · intro p hp hst
    simp [updatePaymentFromWebhook, hp, hst]
  · cases ev with
    | checkoutSessionCompleted pid2 intent =>
      by_cases hp : pid2 = ""
      · simp [stripeWebhookDispatch, hp]
      · simp [stripeWebhookDispatch, hp, updatePaymentFromWebhook_twice]
    | paymentIntentSucceeded pid2 intent =>
      by_cases hp : pid2 = ""
      · simp [stripeWebhookDispatch, hp]
      · simp [stripeWebhookDispatch, hp, updatePaymentFromWebhook_twice]
    | paymentIntentFailed pid2 intent =>
      by_cases hp : pid2 = ""
      · simp [stripeWebhookDispatch, hp]
      · simp [stripeWebhookDispatch, hp, updatePaymentFromWebhook_twice]
    | unknownType tag => simp [stripeWebhookDispatch]

theorem paymentWebhook_idempotent_witness :
    updatePaymentFromWebhook true
      [("p1", { client_id := "c1", freelancer_id := "f1", amount := 100, currency := "usd",
                stripe_checkout_session_id := "cs_1", stripe_payment_intent_id := "pi_1",
                status := "paid", is_deleted := false, created_at := 0 })] "p1" "paid" "pi_9" =
      (Except.ok (),
        [("p1", { client_id := "c1", freelancer_id := "f1", amount := 100, currency := "usd",
                  stripe_checkout_session_id := "cs_1", stripe_payment_intent_id := "pi_1",
                  status := "paid", is_deleted := false, created_at := 0 })]) :=
  (paymentWebhook_idempotent true
      [("p1", { client_id := "c1", freelancer_id := "f1", amount := 100, currency := "usd",
                stripe_checkout_session_id := "cs_1", stripe_payment_intent_id := "pi_1",
                status := "paid", is_deleted := false, created_at := 0 })]
      "p1" "paid" "pi_9" (StripeEvent.unknownType "")).1
    { client_id := "c1", freelancer_id := "f1", amount := 100, currency := "usd",
      stripe_checkout_session_id := "cs_1", stripe_payment_intent_id := "pi_1",
      status := "paid", is_deleted := false, created_at := 0 } rfl rfl

/-- C1 counterexample: a payment stored with status paid, on delivery of a
payment_intent.payment_failed event carrying its id, transitions to status
failed; the code guards only equality of statuses, not the direction of the
transition, so paid to failed is reachable. -/
theorem paymentWebhook_paid_to_failed_cex :
    (let p0 : Payment :=
      { client_id := "c1", freelancer_id := "f1", amount := 100, currency := "usd",
        stripe_checkout_session_id := "cs_1", stripe_payment_intent_id := "pi_1",
        status := "paid", is_deleted := false, created_at := 0 }
    p0.status = "paid" ∧
      (findRecordById (stripeWebhookDispatch true [("p1", p0)]
          (StripeEvent.paymentIntentFailed "p1" "pi_2")).2 "p1").map Payment.status =
        some "failed") := by
  decide

/-- C1 amended: the reconciler always writes the target status of the event
when it differs from the stored one, so under the assumption that the provider
never delivers a reversal event (no failed-target event for a paid record and
no paid-target event for a failed record) the stored status only moves from
created to paid, from created to failed, or stays equal. -/
theorem paymentWebhook_no_reversal (saveOk : Bool) (store : PaymentStore) (ev : StripeEvent)
    (p p2 : Payment) (target : String)
    (htarget : eventTargetStatus ev = some target)
    (hp : findRecordById store (eventPaymentID ev) = some p)
    (hnorev1 : ¬(p.status = "paid" ∧ target = "failed"))
    (hnorev2 : ¬(p.status = "failed" ∧ target = "paid"))
    (hp2 : findRecordById (stripeWebhookDispatch saveOk store ev).2 (eventPaymentID ev) =
      some p2) :
    p2.status = p.status ∨ (p.status ≠ "paid" ∧ p.status ≠ "failed" ∧ p2.status = target) := by
  have htv : target = "paid" ∨ target = "failed" := by
    cases ev <;> simp [eventTargetStatus] at htarget <;> simp [htarget]
  have hupd : ∀ iid, findRecordById
        (updatePaymentFromWebhook saveOk store (eventPaymentID ev) target iid).2
        (eventPaymentID ev) = some p2 →
      p2.status = p.status ∨ (p.status ≠ "paid" ∧ p.status ≠ "failed" ∧ p2.status = target) := by
    intro iid hp2'
    by_cases hs : p.status = target
    · left
      simp [updatePaymentFromWebhook, hp, hs] at hp2'
      rw [hp2']
    · cases hsave : saveOk with
      | false =>
        left
        rw [hsave] at hp2'
        simp [updatePaymentFromWebhook, hp, hs] at hp2'
        rw [hp2']
      | true =>
        right
        rw [hsave] at hp2'
        have hlook := findRecordById_saveExisting_same store (eventPaymentID ev)
          (reconciledPayment p target iid) p hp
        simp [updatePaymentFromWebhook, hp, hs, hlook] at hp2'
        have hstat2 : p2.status = target := by
          rw [← hp2', reconciledPayment_status]
        refine ⟨?_, ?_, hstat2⟩
        · intro hpaid
          rcases htv with h1 | h1
          · exact hs (hpaid.trans h1.symm)
          · exact hnorev1 ⟨hpaid, h1⟩
        · intro hfailed
          rcases htv with h1 | h1
          · exact hnorev2 ⟨hfailed, h1⟩
          · exact hs (hfailed.trans h1.symm)
  cases ev with
  | checkoutSessionCompleted pid2 intent =>
    simp only [eventTargetStatus, Option.some.injEq] at htarget
    subst htarget
    by_cases hpid : pid2 = ""
    · left
      simp [stripeWebhookDispatch, hpid, eventPaymentID] at hp2
      rw [eventPaymentID] at hp
      simp [hpid] at hp ⊢
      rw [hp] at hp2
      cases hp2
      rfl
    · exact hupd intent (by simpa [stripeWebhookDispatch, hpid, eventPaymentID] using hp2)
  | paymentIntentSucceeded pid2 intent =>
    simp only [eventTargetStatus, Option.some.injEq] at htarget
    subst htarget
    by_cases hpid : pid2 = ""
    · left
      simp [stripeWebhookDispatch, hpid, eventPaymentID] at hp2
      rw [eventPaymentID] at hp
      simp [hpid] at hp ⊢
      rw [hp] at hp2
      cases hp2
      rfl
    · exact hupd intent (by simpa [stripeWebhookDispatch, hpid, eventPaymentID] using hp2)
  | paymentIntentFailed pid2 intent =>
    simp only [eventTargetStatus, Option.some.injEq] at htarget
    subst htarget
    by_cases hpid : pid2 = ""
    · left
      simp [stripeWebhookDispatch, hpid, eventPaymentID] at hp2
      rw [eventPaymentID] at hp
      simp [hpid] at hp ⊢
      rw [hp] at hp2
      cases hp2
      rfl
    · exact hupd intent (by simpa [stripeWebhookDispatch, hpid, eventPaymentID] using hp2)
  | unknownType tag => simp [eventTargetStatus] at htarget

theorem paymentWebhook_no_reversal_witness :
    ({ client_id := "c1", freelancer_id := "f1", amount := 100, currency := "usd",
       stripe_checkout_session_id := "cs_1", stripe_payment_intent_id := "pi_1",
       status := "paid", is_deleted := false, created_at := 0 } : Payment).status =
      ({ client_id := "c1", freelancer_id := "f1", amount := 100, currency := "usd",
         stripe_checkout_session_id := "cs_1", stripe_payment_intent_id := "",
         status := "created", is_deleted := false, created_at := 0 } : Payment).status
    ∨ (({ client_id := "c1", freelancer_id := "f1", amount := 100, currency := "usd",
          stripe_checkout_session_id := "cs_1", stripe_payment_intent_id := "",
          status := "created", is_deleted := false, created_at := 0 } : Payment).status ≠ "paid"
      ∧ ({ client_id := "c1", freelancer_id := "f1", amount := 100, currency := "usd",
           stripe_checkout_session_id := "cs_1", stripe_payment_intent_id := "",
           status := "created", is_deleted := false, created_at := 0 } : Payment).status ≠ "failed"
      ∧ ({ client_id := "c1", freelancer_id := "f1", amount := 100, currency := "usd",
           stripe_checkout_session_id := "cs_1", stripe_payment_intent_id := "pi_1",
           status := "paid", is_deleted := false, created_at := 0 } : Payment).status = "paid") :=
  paymentWebhook_no_reversal true
    [("p1", { client_id := "c1", freelancer_id := "f1", amount := 100, currency := "usd",
              stripe_checkout_session_id := "cs_1", stripe_payment_intent_id := "",
              status := "created", is_deleted := false, created_at := 0 })]
    (StripeEvent.checkoutSessionCompleted "p1" "pi_1")
    { client_id := "c1", freelancer_id := "f1", amount := 100, currency := "usd",
      stripe_checkout_session_id := "cs_1", stripe_payment_intent_id := "",
      status := "created", is_deleted := false, created_at := 0 }
    { client_id := "c1", freelancer_id := "f1", amount := 100, currency := "usd",
      stripe_checkout_session_id := "cs_1", stripe_payment_intent_id := "pi_1",
      status := "paid", is_deleted := false, created_at := 0 }
    "paid" rfl (by decide) (by decide) (by decide) (by decide)

/-- C10: when the reconciler applies an actual status transition, only the
status field changes, together with the stripe_payment_intent_id field exactly
when the event carried a non-empty intent id; every other Payment field is
unchanged, and an empty incoming intent id leaves the stored intent id
intact. -/
theorem updatePaymentFromWebhook_frame (store : PaymentStore) (pid st iid : String)
    (p : Payment) (hp : findRecordById store pid = some p) (hne : p.status ≠ st) :
    ∃ p2, findRecordById (updatePaymentFromWebhook true store pid st iid).2 pid = some p2
      ∧ p2.status = st
      ∧ p2.stripe_payment_intent_id =
          (if iid = "" then p.stripe_payment_intent_id else iid)
      ∧ p2.client_id = p.client_id ∧ p2.freelancer_id = p.freelancer_id
      ∧ p2.amount = p.amount ∧ p2.currency = p.currency
      ∧ p2.stripe_checkout_session_id = p.stripe_checkout_session_id
      ∧ p2.is_deleted = p.is_deleted ∧ p2.created_at = p.created_at := by
  refine ⟨reconciledPayment p st iid, ?_, ?_, ?_, ?_, ?_, ?_, ?_, ?_, ?_, ?_⟩
  · have hlook := findRecordById_saveExisting_same store pid (reconciledPayment p st iid) p hp
    simp [updatePaymentFromWebhook, hp, hne, hlook]
  all_goals by_cases hiid : iid = "" <;> simp [reconciledPayment, hiid]

theorem updatePaymentFromWebhook_frame_witness :
    ∃ p2, findRecordById (updatePaymentFromWebhook true
        [("p1", { client_id := "c1", freelancer_id := "f1", amount := 100, currency := "usd",
                  stripe_checkout_session_id := "cs_1", stripe_payment_intent_id := "pi_0",
                  status := "created", is_deleted := false, created_at := 0 })]
        "p1" "paid" "pi_1").2 "p1" = some p2
      ∧ p2.status = "paid"
      ∧ p2.stripe_payment_intent_id = (if ("pi_1" : String) = "" then "pi_0" else "pi_1")
      ∧ p2.client_id = "c1" ∧ p2.freelancer_id = "f1" ∧ p2.amount = 100 ∧ p2.currency = "usd"
      ∧ p2.stripe_checkout_session_id = "cs_1" ∧ p2.is_deleted = false ∧ p2.created_at = 0 := by
  exact updatePaymentFromWebhook_frame
    [("p1", { client_id := "c1", freelancer_id := "f1", amount := 100, currency := "usd",
              stripe_checkout_session_id := "cs_1", stripe_payment_intent_id := "pi_0",
              status := "created", is_deleted := false, created_at := 0 })]
    "p1" "paid" "pi_1"
    { client_id := "c1", freelancer_id := "f1", amount := 100, currency := "usd",
      stripe_checkout_session_id := "cs_1", stripe_payment_intent_id := "pi_0",
      status := "created", is_deleted := false, created_at := 0 }
    rfl (by decide)

/-! ### Didit signature and timestamp verification: theorems -/

theorem isTimestampValid_iff (ts now : Int) :
    isTimestampValid ts now 300 = true ↔ (now - ts).natAbs ≤ 300 := by
  simp only [isTimestampValid, Bool.and_eq_true, decide_eq_true_eq]
  omega

theorem diditGate_false_handler_401 (secret body : List Nat) (sigHeader tsHeader : String)
    (now : Int) (decode : List Nat → Option DiditWebhookPayload) (saveOk : Bool)
    (store : UserStore) (hg : diditGate secret sigHeader body tsHeader now = false) :
    diditWebhookHandler secret tsHeader sigHeader body now decode saveOk store =
      (401, store) := by
  cases hts : parseDiditTimestamp tsHeader with
  | none => simp [diditWebhookHandler, hts]
  | some ts =>
    simp only [diditGate, hts] at hg
    cases hvalid : isTimestampValid ts now 300 with
    | false => simp [diditWebhookHandler, hts, hvalid]
    | true =>
      rw [hvalid] at hg
      simp only [Bool.true_and] at hg
      simp [diditWebhookHandler, hts, hvalid, hg]

/-- C2: the webhook verification gate passes if and only if the hex-encoded
HMAC-SHA256 of the exact raw body under the shared secret equals the signature
header and the timestamp header parses as integer epoch seconds within 300
seconds of skew. Consequently any signature different from the correct digest
is rejected (in particular any single-byte change of a valid signature), any
body whose digest no longer equals the signature header is rejected (which is
every single-byte change of the body short of an HMAC collision), a skew of
exactly 301 seconds is rejected, an absent or unparsable timestamp header is
rejected, and a failed gate yields the 401 response with no store change. -/
theorem diditVerification_characterization (secret body : List Nat)
    (sigHeader tsHeader : String) (now : Int) :
    (diditGate secret sigHeader body tsHeader now = true ↔
      (hexEncode (hmacSha256 secret body) = sigHeader ∧
        ∃ ts, parseDiditTimestamp tsHeader = some ts ∧ (now - ts).natAbs ≤ 300))
    ∧ (∀ sig2, sig2 ≠ hexEncode (hmacSha256 secret body) →
        diditGate secret sig2 body tsHeader now = false)
    ∧ (∀ body2, hexEncode (hmacSha256 secret body2) ≠ sigHeader →
        diditGate secret sigHeader body2 tsHeader now = false)
    ∧ (∀ ts, parseDiditTimestamp tsHeader = some ts → (now - ts).natAbs = 301 →
        diditGate secret sigHeader body tsHeader now = false)
    ∧ (parseDiditTimestamp tsHeader = none →
        diditGate secret sigHeader body tsHeader now = false)
    ∧ (∀ decode saveOk store, diditGate secret sigHeader body tsHeader now = false →
        diditWebhookHandler secret tsHeader sigHeader body now decode saveOk store =
          (401, store)) := by
  have hgate : ∀ sig2 body2, diditGate secret sig2 body2 tsHeader now = true ↔
      (hexEncode (hmacSha256 secret body2) = sig2 ∧
        ∃ ts, parseDiditTimestamp tsHeader = some ts ∧ (now - ts).natAbs ≤ 300) := by
    intro sig2 body2
    cases hts : parseDiditTimestamp tsHeader with
    | none => simp [diditGate, hts]
    | some ts =>
      simp [diditGate, hts, Bool.and_eq_true, isTimestampValid_iff,
        verifyDiditSignatureV2, beq_iff_eq]
      tauto
  refine ⟨hgate sigHeader body, ?_, ?_, ?_, ?_, ?_⟩
  · intro sig2 hne
    cases hg : diditGate secret sig2 body tsHeader now with
    | false => rfl
    | true => exact absurd ((hgate sig2 body).mp hg).1 (fun h => hne h.symm)
  · intro body2 hne
    cases hg : diditGate secret sigHeader body2 tsHeader now with
    | false => rfl
    | true => exact absurd ((hgate sigHeader body2).mp hg).1 hne
  · intro ts hts hskew
    cases hg : diditGate secret sigHeader body tsHeader now with
    | false => rfl
    | true =>
      rcases ((hgate sigHeader body).mp hg).2 with ⟨ts2, hts2, hle⟩
      rw [hts] at hts2
      cases hts2
      omega
  · intro hts
    cases hg : diditGate secret sigHeader body tsHeader now with
    | false => rfl
    | true =>
      rcases ((hgate sigHeader body).mp hg).2 with ⟨ts2, hts2, _⟩
      rw [hts] at hts2
      cases hts2
  · intro decode saveOk store hg
    exact diditGate_false_handler_401 secret body sigHeader tsHeader now decode saveOk store hg

theorem diditVerification_characterization_witness :
    (diditGate [1] "a" [2] "" 0 = false
      ∧ parseDiditTimestamp "" = none)
    ∧ (diditGate [1] "a" [2] "301" 0 = false
      ∧ parseDiditTimestamp "301" = some 301 ∧ ((0 : Int) - 301).natAbs = 301)
    ∧ diditWebhookHandler [1] "" "a" [2] 0 (fun _ => none) true [] = (401, []) := by
  refine ⟨⟨?_, rfl⟩, ⟨?_, rfl, by decide⟩, ?_⟩
  · exact (diditVerification_characterization [1] [2] "a" "" 0).2.2.2.2.1 rfl
  · exact (diditVerification_characterization [1] [2] "a" "301" 0).2.2.2.1 301 rfl (by decide)
  · exact (diditVerification_characterization [1] [2] "a" "" 0).2.2.2.2.2
      (fun _ => none) true []
      ((diditVerification_characterization [1] [2] "a" "" 0).2.2.2.2.1 rfl)

/-! ### Didit webhook reconciliation: theorems -/

theorem applyDiditPayload_fst (payload : DiditWebhookPayload) (saveOk : Bool)
    (store : UserStore) : (applyDiditPayload payload saveOk store).1 = 200 := by
  rw [applyDiditPayload]
  split
  · rfl
  · split
    · rfl
    · rename_i uidUser heq
      cases uidUser with
      | mk uid user =>
        dsimp only
        split
        · rfl
        · rfl

/-- C5 amended: once the timestamp and signature gate passes, any body that
decodes as JSON is acknowledged with 200 regardless of internal outcome,
including a field-missing payload, a session id with no matching user, and a
persistence failure; a failed gate yields 401; but a body that fails JSON
decoding yields 401 even after a passing gate, not 200. -/
theorem diditWebhook_ack_policy (secret body : List Nat) (tsHeader sigHeader : String)
    (now : Int) (decode : List Nat → Option DiditWebhookPayload) (saveOk : Bool)
    (store : UserStore) :
    (diditGate secret sigHeader body tsHeader now = true →
      ∀ payload, decode body = some payload →
        (diditWebhookHandler secret tsHeader sigHeader body now decode saveOk store).1 = 200)
    ∧ (diditGate secret sigHeader body tsHeader now = true → decode body = none →
        diditWebhookHandler secret tsHeader sigHeader body now decode saveOk store =
          (401, store))
    ∧ (diditGate secret sigHeader body tsHeader now = false →
        diditWebhookHandler secret tsHeader sigHeader body now decode saveOk store =
          (401, store)) := by
  refine ⟨?_, ?_, ?_⟩
  · intro hg payload hdec
    cases hts : parseDiditTimestamp tsHeader with
    | none => rw [diditGate, hts] at hg; cases hg
    | some ts =>
      simp only [diditGate, hts, Bool.and_eq_true] at hg
      simp [diditWebhookHandler, hts, hg.1, hg.2, hdec, applyDiditPayload_fst]
  · intro hg hdec
    cases hts : parseDiditTimestamp tsHeader with
    | none => rw [diditGate, hts] at hg; cases hg
    | some ts =>
      simp only [diditGate, hts, Bool.and_eq_true] at hg
      simp [diditWebhookHandler, hts, hg.1, hg.2, hdec]
  · exact diditGate_false_handler_401 secret body sigHeader tsHeader now decode saveOk store

theorem diditWebhook_ack_policy_witness :
    diditGate [1] (hexEncode (hmacSha256 [1] [2])) [2] "0" 0 = true
    ∧ (diditWebhookHandler [1] "0" (hexEncode (hmacSha256 [1] [2])) [2] 0
        (fun _ => some { sessionID := "", status := "", webhookType := "", timestamp := 0,
                         reason := "" }) true []).1 = 200 := by
  have hg : diditGate [1] (hexEncode (hmacSha256 [1] [2])) [2] "0" 0 = true := by
    have h5 : parseDiditTimestamp "0" = some 0 := rfl
    simp [diditGate, h5, isTimestampValid, verifyDiditSignatureV2]
  refine ⟨hg, ?_⟩
  exact (diditWebhook_ack_policy [1] [2] "0" (hexEncode (hmacSha256 [1] [2])) 0
      (fun _ => some { sessionID := "", status := "", webhookType := "", timestamp := 0,
                       reason := "" }) true []).1 hg
    { sessionID := "", status := "", webhookType := "", timestamp := 0, reason := "" } rfl

/-- C5 counterexample: a request whose signature and timestamp checks both pass
but whose body fails JSON decoding is answered with 401, not 200; didit.go
line 221 returns an unauthorized error for an undecodable body after a passing
gate. -/
theorem diditWebhook_nonjson_401_cex :
    diditGate [1, 2] (hexEncode (hmacSha256 [1, 2] [255])) [255] "5" 5 = true
    ∧ diditWebhookHandler [1, 2] "5" (hexEncode (hmacSha256 [1, 2] [255])) [255] 5
        (fun _ => none) true [] = (401, []) := by
  have h5 : parseDiditTimestamp "5" = some 5 := rfl
  constructor
  · simp [diditGate, h5, isTimestampValid, verifyDiditSignatureV2]
  · simp [diditWebhookHandler, h5, isTimestampValid, verifyDiditSignatureV2]

/-- C6: for a delivery that resolves to a stored user, an incoming triple of
lowercased status, reason, and session id equal to the stored triple produces
no write; otherwise verification_status is overwritten with the lowercased
incoming status and verification_reason is overwritten exactly when the
incoming reason is non-empty. -/
theorem diditApply_noop_or_overwrite (payload : DiditWebhookPayload) (saveOk : Bool)
    (store : UserStore) (uid : String) (user : UserRecord)
    (hfind : store.find? (fun kv => kv.2.didit_session_id == payload.sessionID) =
      some (uid, user))
    (hs : payload.sessionID ≠ "") (hst : payload.status ≠ "") (hw : payload.webhookType ≠ "") :
    (user.verification_status = goToLower payload.status ∧
        user.verification_reason = payload.reason ∧
        user.didit_session_id = payload.sessionID →
      applyDiditPayload payload saveOk store = (200, store))
    ∧ (¬(user.verification_status = goToLower payload.status ∧
          user.verification_reason = payload.reason ∧
          user.didit_session_id = payload.sessionID) →
        applyDiditPayload payload true store =
          (200, saveExisting store uid (diditUpdatedUser user payload))) := by
  constructor
  · intro htriple
    simp [applyDiditPayload, hs, hst, hw, hfind, htriple]
  · intro htriple
    simp [applyDiditPayload, hs, hst, hw, hfind, htriple]

theorem diditApply_noop_or_overwrite_witness :
    applyDiditPayload
      { sessionID := "s1", status := "Approved", webhookType := "status.updated",
        timestamp := 0, reason := "ok" } true
      [("u1", { didit_session_id := "s1", verification_status := "pending",
                verification_reason := "" })] =
    (200, saveExisting
      [("u1", { didit_session_id := "s1", verification_status := "pending",
                verification_reason := "" })] "u1"
      (diditUpdatedUser
        { didit_session_id := "s1", verification_status := "pending",
          verification_reason := "" }
        { sessionID := "s1", status := "Approved", webhookType := "status.updated",
          timestamp := 0, reason := "ok" })) := by
  exact (diditApply_noop_or_overwrite
    { sessionID := "s1", status := "Approved", webhookType := "status.updated",
      timestamp := 0, reason := "ok" } true
    [("u1", { didit_session_id := "s1", verification_status := "pending",
              verification_reason := "" })]
    "u1" { didit_session_id := "s1", verification_status := "pending",
           verification_reason := "" }
    rfl (by decide) (by decide) (by decide)).2 (by decide)

/-! ### Proposal acceptance: theorems -/

theorem find?_append_singleton (p : α → Bool) (l : List α) (x : α)
    (hl : l.filter p = []) (hx : p x = true) : (l ++ [x]).find? p = some x := by
  induction l with
  | nil => simp [List.find?, hx]
  | cons a as ih =>
    have ha : p a = false := by
      have := List.filter_eq_nil_iff.mp hl a (by simp)
      simpa using this
    have has : as.filter p = [] := by
      rwa [List.filter_cons, if_neg (by simp [ha])] at hl
    simp [List.find?, ha, ih has]

theorem handleProposalAcceptance_store_cases (env : StreamEnv)
    (projects : List (String × ProjectRecord)) (convs : List Conversation)
    (rec : Option ProposalRecord) :
    (handleProposalAcceptance env projects convs rec).2 = convs
    ∨ ∃ r, rec = some r ∧ convs.find? (liveConversationFor r.id) = none
        ∧ (handleProposalAcceptance env projects convs rec).2 =
            convs ++ [{ project_id := r.project_id, proposal_id := r.id,
                        stream_channel_id := "project_" ++ r.project_id, is_deleted := false }] := by
  cases rec with
  | none => left; rfl
  | some r =>
    rw [handleProposalAcceptance]
    split
    · left; rfl
    · split
      · left; rfl
      · split
        · left; rfl
        · rename_i hfind
          split
          · left; rfl
          · split
            · left; rfl
            · split
              · left; rfl
              · split
                · left; rfl
                · split
                  · right; exact ⟨r, rfl, hfind, rfl⟩
                  · left; rfl

/-- C7: the acceptance orchestrator preserves at most one live conversation per
proposal under sequential hook firings. When a live conversation for the
proposal already exists, the hook returns success with no provisioning; the
at-most-one-live invariant is preserved by every firing; and from a state with
no live conversation, a single accepted transition with all provider calls
succeeding yields exactly one live conversation, after which re-triggering the
hook on the same accepted proposal is a success that adds nothing. -/
theorem proposalAcceptance_at_most_one_live (env : StreamEnv)
    (projects : List (String × ProjectRecord)) (convs : List Conversation)
    (r : ProposalRecord) (pid : String) :
    (∀ c, convs.find? (liveConversationFor r.id) = some c →
      handleProposalAcceptance env projects convs (some r) = (Except.ok (), convs))
    ∧ (∀ rec, (liveConversations pid convs).length ≤ 1 →
        (liveConversations pid (handleProposalAcceptance env projects convs rec).2).length ≤ 1)
    ∧ (r.is_deleted = false → r.status = "accepted" → liveConversations r.id convs = [] →
        ∀ proj, findRecordById projects r.project_id = some proj →
        env.upsertUsersOk = true → env.createChannelOk = true →
        env.conversationsCollectionOk = true → env.saveOk = true →
        (liveConversations r.id
            (handleProposalAcceptance env projects convs (some r)).2).length = 1
        ∧ handleProposalAcceptance env projects
            (handleProposalAcceptance env projects convs (some r)).2 (some r) =
          (Except.ok (), (handleProposalAcceptance env projects convs (some r)).2)) := by
  refine ⟨?_, ?_, ?_⟩
  · intro c hc
    rw [handleProposalAcceptance]
    split
    · rfl
    · split
      · rfl
      · simp [hc]
  · intro rec hle
    rcases handleProposalAcceptance_store_cases env projects convs rec with h | ⟨r2, hrec, hfind, h⟩
    · rw [h]; exact hle
    · rw [h]
      unfold liveConversations at hle ⊢
      rw [List.filter_append]
      by_cases hpid : r2.id = pid
      · have hnil : convs.filter (liveConversationFor pid) = [] := by
          rw [List.filter_eq_nil_iff]
          intro x hx
          have := List.find?_eq_none.mp hfind x hx
          rwa [hpid] at this
        simp [hnil, liveConversationFor, hpid]
      · simp [liveConversationFor, hpid]
        exact hle
  · intro hdel hstat hlive proj hproj hupsert hchan hcol hsave
    have hfind : convs.find? (liveConversationFor r.id) = none := by
      rw [List.find?_eq_none]
      intro x hx
      exact List.filter_eq_nil_iff.mp hlive x hx
    have hrun : handleProposalAcceptance env projects convs (some r) =
        (Except.ok (), convs ++
          [{ project_id := r.project_id, proposal_id := r.id,
             stream_channel_id := "project_" ++ r.project_id, is_deleted := false }]) := by
      rw [handleProposalAcceptance]
      simp [hdel, hstat, hfind, hproj, hupsert, hchan, hcol, hsave]
    have hnew : liveConversationFor r.id
        { project_id := r.project_id, proposal_id := r.id,
          stream_channel_id := "project_" ++ r.project_id, is_deleted := false } = true := by
      simp [liveConversationFor]
    have hlive2 : convs.filter (liveConversationFor r.id) = [] := hlive
    have hfind2 : (convs ++
          [({ project_id := r.project_id, proposal_id := r.id,
              stream_channel_id := "project_" ++ r.project_id,
              is_deleted := false } : Conversation)]).find?
          (liveConversationFor r.id) =
        some { project_id := r.project_id, proposal_id := r.id,
               stream_channel_id := "project_" ++ r.project_id, is_deleted := false } :=
      find?_append_singleton _ _ _ hlive2 hnew
    constructor
    · rw [hrun]
      unfold liveConversations
      rw [List.filter_append, hlive2]
      simp [hnew]
    · rw [hrun]
      rw [handleProposalAcceptance]
      split
      · rfl
      · split
        · rfl
        · simp [hfind2]

theorem proposalAcceptance_at_most_one_live_witness :
    (liveConversations "prop1"
      (handleProposalAcceptance
        { upsertUsersOk := true, createChannelOk := true, conversationsCollectionOk := true,
          saveOk := true }
        [("proj1", { client_id := "c1", title := "T", is_deleted := false })] []
        (some { id := "prop1", project_id := "proj1", client_id := "c1",
                freelancer_id := "f1", status := "accepted", is_deleted := false })).2).length = 1
    ∧ handleProposalAcceptance
        { upsertUsersOk := true, createChannelOk := true, conversationsCollectionOk := true,
          saveOk := true }
        [("proj1", { client_id := "c1", title := "T", is_deleted := false })]
        (handleProposalAcceptance
          { upsertUsersOk := true, createChannelOk := true, conversationsCollectionOk := true,
            saveOk := true }
          [("proj1", { client_id := "c1", title := "T", is_deleted := false })] []
          (some { id := "prop1", project_id := "proj1", client_id := "c1",
                  freelancer_id := "f1", status := "accepted", is_deleted := false })).2
        (some { id := "prop1", project_id := "proj1", client_id := "c1",
                freelancer_id := "f1", status := "accepted", is_deleted := false }) =
      (Except.ok (),
        (handleProposalAcceptance
          { upsertUsersOk := true, createChannelOk := true, conversationsCollectionOk := true,
            saveOk := true }
          [("proj1", { client_id := "c1", title := "T", is_deleted := false })] []
          (some { id := "prop1", project_id := "proj1", client_id := "c1",
                  freelancer_id := "f1", status := "accepted", is_deleted := false })).2) := by
  exact (proposalAcceptance_at_most_one_live
      { upsertUsersOk := true, createChannelOk := true, conversationsCollectionOk := true,
        saveOk := true }
      [("proj1", { client_id := "c1", title := "T", is_deleted := false })] []
      { id := "prop1", project_id := "proj1", client_id := "c1",
        freelancer_id := "f1", status := "accepted", is_deleted := false }
      "prop1").2.2 rfl rfl rfl
    { client_id := "c1", title := "T", is_deleted := false } rfl rfl rfl rfl rfl

/-! ### Stripe checkout handler: theorems -/

/-- C8: when the Payment record was created but the provider checkout-session
call fails, the handler returns the upstream 500 error with no checkout url,
the already-created record still exists under the fresh id and is queryable
with its amount and live flag intact, and its status is failed exactly when
the best-effort compensating save succeeds (created when it fails). -/
theorem checkout_provider_failure_compensation (env : CheckoutEnv)
    (payload : stripeCheckoutRequest) (payments : PaymentStore)
    (callerId : String) (caller : CheckoutUser) (project : ProjectRecord)
    (freelancer : CheckoutUser)
    (hauth : env.authRecord = some (callerId, caller)) (hrole : caller.role = "client")
    (hbind : env.bindOk = true) (hamt : 0 < payload.amount)
    (hpid : payload.project_id ≠ "") (hfid : payload.freelancer_id ≠ "")
    (hproj : findRecordById env.projects payload.project_id = some project)
    (hpdel : project.is_deleted = false) (hown : project.client_id = callerId)
    (hfr : findRecordById env.users payload.freelancer_id = some freelancer)
    (hfdel : freelancer.is_deleted = false) (hfrole : freelancer.role = "freelancer")
    (hcol : env.paymentsCollectionOk = true) (hcreate : env.createSaveOk = true)
    (hprov : env.providerOk = false)
    (hfresh : findRecordById payments env.newPaymentID = none) :
    (stripeCheckoutHandler env payload payments).1 =
        Except.error (500, "failed to create checkout session")
    ∧ ∃ p2, findRecordById (stripeCheckoutHandler env payload payments).2
          env.newPaymentID = some p2
        ∧ p2.is_deleted = false
        ∧ p2.status = (if env.compensationSaveOk then "failed" else "created")
        ∧ p2.amount = payload.amount := by
  have hres : stripeCheckoutHandler env payload payments =
      (Except.error (500, "failed to create checkout session"),
        if env.compensationSaveOk then
          saveExisting (payments ++ [(env.newPaymentID,
              newCheckoutPayment callerId payload
                (goToLower (if payload.currency = "" then "usd" else payload.currency))
                env.nowTime)])
            env.newPaymentID
            { newCheckoutPayment callerId payload
                (goToLower (if payload.currency = "" then "usd" else payload.currency))
                env.nowTime with status := "failed" }
        else payments ++ [(env.newPaymentID,
          newCheckoutPayment callerId payload
            (goToLower (if payload.currency = "" then "usd" else payload.currency))
            env.nowTime)]) := by
    rw [stripeCheckoutHandler, hauth]
    simp [hrole, hbind, show ¬payload.amount ≤ 0 from by omega, hpid, hfid, hproj,
      hpdel, hown, hfr, hfdel, hfrole, hcol, hcreate, hprov]
  have happend := findRecordById_append_fresh payments env.newPaymentID
    (newCheckoutPayment callerId payload
      (goToLower (if payload.currency = "" then "usd" else payload.currency))
      env.nowTime) hfresh
  rw [hres]
  refine ⟨rfl, ?_⟩
  cases hcomp : env.compensationSaveOk with
  | true =>
    refine ⟨{ newCheckoutPayment callerId payload
        (goToLower (if payload.currency = "" then "usd" else payload.currency))
        env.nowTime with status := "failed" }, ?_, rfl, rfl, rfl⟩
    simpa using findRecordById_saveExisting_same _ env.newPaymentID _ _ happend
  | false =>
    exact ⟨newCheckoutPayment callerId payload
        (goToLower (if payload.currency = "" then "usd" else payload.currency))
        env.nowTime, by simpa using happend, rfl, rfl, rfl⟩

theorem checkout_provider_failure_compensation_witness :
    (stripeCheckoutHandler
        { authRecord := some ("u1", { role := "client", is_deleted := false }),
          bindOk := true,
          projects := [("pr1", { client_id := "u1", title := "T", is_deleted := false })],
          users := [("fr1", { role := "freelancer", is_deleted := false })],
          paymentsCollectionOk := true, createSaveOk := true, providerOk := false,
          providerSessionID := "cs_1", providerURL := "https://checkout", sessionSaveOk := true,
          compensationSaveOk := true, newPaymentID := "pay1", nowTime := 7 }
        { project_id := "pr1", freelancer_id := "fr1", amount := 10000, currency := "" }
        []).1 = Except.error (500, "failed to create checkout session")
    ∧ ∃ p2, findRecordById (stripeCheckoutHandler
        { authRecord := some ("u1", { role := "client", is_deleted := false }),
          bindOk := true,
          projects := [("pr1", { client_id := "u1", title := "T", is_deleted := false })],
          users := [("fr1", { role := "freelancer", is_deleted := false })],
          paymentsCollectionOk := true, createSaveOk := true, providerOk := false,
          providerSessionID := "cs_1", providerURL := "https://checkout", sessionSaveOk := true,
          compensationSaveOk := true, newPaymentID := "pay1", nowTime := 7 }
        { project_id := "pr1", freelancer_id := "fr1", amount := 10000, currency := "" }
        []).2 "pay1" = some p2
      ∧ p2.is_deleted = false
      ∧ p2.status = (if (true : Bool) then "failed" else "created")
      ∧ p2.amount = 10000 := by
  exact checkout_provider_failure_compensation
    { authRecord := some ("u1", { role := "client", is_deleted := false }),
      bindOk := true,
      projects := [("pr1", { client_id := "u1", title := "T", is_deleted := false })],
      users := [("fr1", { role := "freelancer", is_deleted := false })],
      paymentsCollectionOk := true, createSaveOk := true, providerOk := false,
      providerSessionID := "cs_1", providerURL := "https://checkout", sessionSaveOk := true,
      compensationSaveOk := true, newPaymentID := "pay1", nowTime := 7 }
    { project_id := "pr1", freelancer_id := "fr1", amount := 10000, currency := "" }
    [] "u1" { role := "client", is_deleted := false }
    { client_id := "u1", title := "T", is_deleted := false }
    { role := "freelancer", is_deleted := false }
    rfl rfl rfl (by decide) (by decide) (by decide) rfl rfl rfl rfl rfl rfl rfl rfl rfl rfl

/-- C9 counterexample: a checkout request whose referenced freelancer exists,
is not soft-deleted, and holds role client rather than freelancer is rejected
with a 400 bad-request error (main.go line 107 uses NewBadRequestError), not a
403-class authorization error as claimed. -/
theorem checkout_freelancer_role_mismatch_400_cex :
    findRecordById
        [("fr1", ({ role := "client", is_deleted := false } : CheckoutUser))] "fr1" =
      some { role := "client", is_deleted := false }
    ∧ stripeCheckoutHandler
        { authRecord := some ("u1", { role := "client", is_deleted := false }),
          bindOk := true,
          projects := [("pr1", { client_id := "u1", title := "T", is_deleted := false })],
          users := [("fr1", { role := "client", is_deleted := false })],
          paymentsCollectionOk := true, createSaveOk := true, providerOk := true,
          providerSessionID := "cs_1", providerURL := "https://checkout", sessionSaveOk := true,
          compensationSaveOk := true, newPaymentID := "pay1", nowTime := 7 }
        { project_id := "pr1", freelancer_id := "fr1", amount := 10000, currency := "" }
        [] = (Except.error (400, "invalid freelancer"), []) := by
  constructor
  · rfl
  · rfl

/-- C9 amended: under an authenticated client caller with a well-formed
request, a non-positive amount is rejected 400; a missing project is rejected
404; a soft-deleted project or one owned by another caller is rejected 403; a
missing freelancer is rejected 404; and a soft-deleted freelancer or one whose
role is not freelancer is rejected 400 (invalid freelancer), not 403. -/
theorem checkout_error_code_mapping (env : CheckoutEnv) (payload : stripeCheckoutRequest)
    (payments : PaymentStore) (callerId : String) (caller : CheckoutUser)
    (hauth : env.authRecord = some (callerId, caller)) (hrole : caller.role = "client")
    (hbind : env.bindOk = true) :
    (payload.amount ≤ 0 →
      (stripeCheckoutHandler env payload payments).1 =
        Except.error (400, "amount must be positive (in cents)"))
    ∧ (0 < payload.amount → payload.project_id ≠ "" → payload.freelancer_id ≠ "" →
        findRecordById env.projects payload.project_id = none →
        (stripeCheckoutHandler env payload payments).1 =
          Except.error (404, "project not found"))
    ∧ (0 < payload.amount → payload.project_id ≠ "" → payload.freelancer_id ≠ "" →
        ∀ project, findRecordById env.projects payload.project_id = some project →
        (project.is_deleted = true ∨ project.client_id ≠ callerId) →
        (stripeCheckoutHandler env payload payments).1 =
          Except.error (403, "not allowed to pay for this project"))
    ∧ (0 < payload.amount → payload.project_id ≠ "" → payload.freelancer_id ≠ "" →
        ∀ project, findRecordById env.projects payload.project_id = some project →
        project.is_deleted = false → project.client_id = callerId →
        findRecordById env.users payload.freelancer_id = none →
        (stripeCheckoutHandler env payload payments).1 =
          Except.error (404, "freelancer not found"))
    ∧ (0 < payload.amount → payload.project_id ≠ "" → payload.freelancer_id ≠ "" →
        ∀ project, findRecordById env.projects payload.project_id = some project →
        project.is_deleted = false → project.client_id = callerId →
        ∀ freelancer, findRecordById env.users payload.freelancer_id = some freelancer →
        (freelancer.is_deleted = true ∨ freelancer.role ≠ "freelancer") →
        (stripeCheckoutHandler env payload payments).1 =
          Except.error (400, "invalid freelancer")) := by
  refine ⟨?_, ?_, ?_, ?_, ?_⟩
  · intro hamt
    rw [stripeCheckoutHandler, hauth]
    simp [hrole, hbind, hamt]
  · intro hamt hpid hfid hproj
    rw [stripeCheckoutHandler, hauth]
    simp [hrole, hbind, show ¬payload.amount ≤ 0 from by omega, hpid, hfid, hproj]
  · intro hamt hpid hfid project hproj hbad
    rw [stripeCheckoutHandler, hauth]
    rcases hbad with hbad | hbad
    · simp [hrole, hbind, show ¬payload.amount ≤ 0 from by omega, hpid, hfid, hproj, hbad]
    · simp [hrole, hbind, show ¬payload.amount ≤ 0 from by omega, hpid, hfid, hproj, hbad]
  · intro hamt hpid hfid project hproj hpdel hown hfr
    rw [stripeCheckoutHandler, hauth]
    simp [hrole, hbind, show ¬payload.amount ≤ 0 from by omega, hpid, hfid, hproj,
      hpdel, hown, hfr]
  · intro hamt hpid hfid project hproj hpdel hown freelancer hfr hbad
    rw [stripeCheckoutHandler, hauth]
    rcases hbad with hbad | hbad
    · simp [hrole, hbind, show ¬payload.amount ≤ 0 from by omega, hpid, hfid, hproj,
        hpdel, hown, hfr, hbad]
    · simp [hrole, hbind, show ¬payload.amount ≤ 0 from by omega, hpid, hfid, hproj,
        hpdel, hown, hfr, hbad]

theorem checkout_error_code_mapping_witness :
    (stripeCheckoutHandler
        { authRecord := some ("u1", { role := "client", is_deleted := false }),
          bindOk := true,
          projects := [("pr1", { client_id := "u2", title := "T", is_deleted := false })],
          users := [("fr1", { role := "freelancer", is_deleted := false })],
          paymentsCollectionOk := true, createSaveOk := true, providerOk := true,
          providerSessionID := "cs_1", providerURL := "https://checkout", sessionSaveOk := true,
          compensationSaveOk := true, newPaymentID := "pay1", nowTime := 7 }
        { project_id := "pr1", freelancer_id := "fr1", amount := 10000, currency := "" }
        []).1 = Except.error (403, "not allowed to pay for this project") := by
  exact (checkout_error_code_mapping
      { authRecord := some ("u1", { role := "client", is_deleted := false }),
        bindOk := true,
        projects := [("pr1", { client_id := "u2", title := "T", is_deleted := false })],
        users := [("fr1", { role := "freelancer", is_deleted := false })],
        paymentsCollectionOk := true, createSaveOk := true, providerOk := true,
        providerSessionID := "cs_1", providerURL := "https://checkout", sessionSaveOk := true,
        compensationSaveOk := true, newPaymentID := "pay1", nowTime := 7 }
      { project_id := "pr1", freelancer_id := "fr1", amount := 10000, currency := "" }
      [] "u1" { role := "client", is_deleted := false } rfl rfl rfl).2.2.1
    (by decide) (by decide) (by decide)
    { client_id := "u2", title := "T", is_deleted := false } rfl (Or.inr (by decide))

end PB
